import Mathlib

/-!
# Verification of the toilet-discovery core (`src/services/geminiService.ts`)

Shallow embedding of the two exported operations of the repository's service
module, `findToilets` and `reverseGeocode`, together with the data they
consume (Overpass elements, Nominatim reverse-geocoding payloads) and the
`Toilet` record they produce (`src/types.ts`).

Modelling conventions:
* JavaScript `undefined`-able values become `Option`; an object field that the
  source reads with `?.` is an `Option` here.
* JavaScript string truthiness (`if (s)`) is `truthyStr`: a string is truthy
  iff it is non-empty; `undefined` is falsy.
* JavaScript numeric `a || b` (used on coordinates) is `jsOrNum`: a number is
  falsy exactly when it is `0` (`NaN` does not occur in the modelled data).
* Coordinates are `Rat` (the source holds IEEE doubles, but no claim depends
  on rounding; only presence/zero tests and plain copying occur).
* The `fetch`/`await`/`try`-`catch` plumbing is modelled by `FetchOutcome`
  (the transport either throws or yields an `HttpResponse`) and by functions
  returning `Except`: `Except.error` marks a thrown exception that the
  surrounding `catch` block then handles.
* Source tag keys `addr:street` … become `addr_street` … (Lean field names
  cannot contain a colon).
-/

namespace ToiletGoWhere

/-- JavaScript string truthiness: `undefined` and `""` are falsy. -/
def truthyStr : Option String → Bool
  | none => false
  | some s => !(s == "")

/-- JavaScript `a || b` on possibly-`undefined` numbers: `undefined` and `0`
are falsy, so `0` (and `undefined`) falls through to `b`. -/
def jsOrNum : Option Rat → Option Rat → Option Rat
  | none, b => b
  | some x, b => if x == 0 then b else some x

/-- Models `String.prototype.toLowerCase` (ASCII range, which is all the
modelled data exercises). -/
def jsToLower (s : String) : String := String.mk (s.data.map Char.toLower)

/-- The discriminator of an Overpass element (`type` field in the source). -/
inductive ElemType
  | node
  | way
  | relation
deriving DecidableEq

/-- The recognised OSM tags (`tags` field of `OverpassElement` in the source;
`addr:street` etc. renamed with underscores). -/
structure Tags where
  name : Option String := none
  addr_street : Option String := none
  addr_housenumber : Option String := none
  addr_postcode : Option String := none
  addr_city : Option String := none
  railway : Option String := none
  toilets : Option String := none
  amenity : Option String := none
  fee : Option String := none
  wheelchair : Option String := none
  diaper : Option String := none
deriving DecidableEq

/-- A latitude/longitude pair, as in the `center` field of the source. -/
structure Coord where
  lat : Rat
  lon : Rat
deriving DecidableEq

/-- The source's `OverpassElement` interface. `lat`/`lon` are optional because
ways and relations carry no direct coordinate in an `out center` response. -/
structure OverpassElement where
  id : Nat
  type : ElemType
  lat : Option Rat := none
  lon : Option Rat := none
  center : Option Coord := none
  tags : Option Tags := none
  nodes : Option (List Nat) := none
deriving DecidableEq

/-- `e.tags?.f` — optional chaining through the optional tag object. -/
def tagOf (e : OverpassElement) (f : Tags → Option String) : Option String :=
  e.tags.bind f

/-- The coordinate pair stored in a produced record
(`{ lat: …, lng: … }` in the source); fields are optional because the
source's `||` fallback can leave them `undefined`. -/
structure JsCoord where
  lat : Option Rat
  lng : Option Rat
deriving DecidableEq

/-- The `Toilet` interface of `src/types.ts`, restricted to the fields the
normalizer actually writes (it writes all of them). -/
structure Toilet where
  id : String
  name : String
  location : JsCoord
  address : String
  housedIn : Option String
  fee : Bool
  wheelchair : Bool
  diaper : Bool
deriving DecidableEq

/-- The filter the source applies before building the parent-name map:
`e.type === 'way' && e.tags?.name && e.nodes` (a present array is always
truthy, so `e.nodes` truthiness is `isSome`). -/
def isIndexedWay (e : OverpassElement) : Bool :=
  e.type == ElemType.way && truthyStr (tagOf e Tags.name) && e.nodes.isSome

/-- The (truthy, hence non-empty) name of an indexed way. -/
def wayNameOf (e : OverpassElement) : String := (tagOf e Tags.name).getD ""

/-- The inner loop of the parent-map construction: for each member node id,
`if (!parentNameMap.has(nodeId)) parentNameMap.set(nodeId, way.tags!.name!)`.
The map is an association list; since a key is only ever inserted when
absent, the position of the inserted pair is immaterial for `has`/`get`,
and we cons it at the front. -/
def insertNodes (nm : String) : List (Nat × String) → List Nat → List (Nat × String)
  | m, [] => m
  | m, n :: ns => insertNodes nm (if (m.lookup n).isSome then m else (n, nm) :: m) ns

/-- Lines 64–72 of the source: build the member-node-id → way-name map over
the named ways of the response, in response order, first writer wins. -/
def buildParentMap (elements : List OverpassElement) : List (Nat × String) :=
  (elements.filter isIndexedWay).foldl
    (fun m w => insertNodes (wayNameOf w) m (w.nodes.getD [])) []

/-- The selection predicate of line 74–76:
`e.tags?.amenity === 'toilets' || (e.tags?.railway === 'station' && e.tags?.toilets === 'yes')`. -/
def isToiletElement (e : OverpassElement) : Bool :=
  tagOf e Tags.amenity == some "toilets" ||
    (tagOf e Tags.railway == some "station" && tagOf e Tags.toilets == some "yes")

/-- `array.filter(Boolean)` over possibly-`undefined` strings followed by use
of the surviving (hence defined) values. -/
def filterTruthy (l : List (Option String)) : List String :=
  (l.filter truthyStr).map (fun o => o.getD "")

/-- The per-element normalisation (the body of the `map` on lines 78–115). -/
def normalizeElement (parentNameMap : List (Nat × String)) (e : OverpassElement) : Toilet :=
  let loc : JsCoord :=
    { lat := jsOrNum (e.center.map Coord.lat) e.lat
      lng := jsOrNum (e.center.map Coord.lon) e.lon }
  let addressParts : List String := filterTruthy
    [tagOf e Tags.addr_street, tagOf e Tags.addr_housenumber,
     tagOf e Tags.addr_postcode, tagOf e Tags.addr_city]
  let nm : String :=
    if tagOf e Tags.railway == some "station" then
      if truthyStr (tagOf e Tags.name) then (tagOf e Tags.name).getD "" ++ " station toilet"
      else "station toilet"
    else if truthyStr (tagOf e Tags.name) then (tagOf e Tags.name).getD ""
    else "public toilet"
  let housed : Option String :=
    if e.type == ElemType.node then parentNameMap.lookup e.id else none
  let addr : String :=
    if 0 < addressParts.length then String.intercalate ", " addressParts
    else "address not available"
  { id := toString e.id
    name := jsToLower nm
    location := loc
    address := jsToLower addr
    housedIn := housed.map jsToLower
    fee := tagOf e Tags.fee == some "no" || tagOf e Tags.fee == some "0"
    wheelchair := tagOf e Tags.wheelchair == some "yes"
    diaper := tagOf e Tags.diaper == some "yes" }

/-- An HTTP response as the source observes it: the `ok` flag and the result
of `await response.json()` (`none` when the body is not valid JSON and the
`json()` promise rejects). -/
structure HttpResponse (β : Type) where
  ok : Bool
  body : Option β
deriving DecidableEq

/-- The outcome of `await fetch(...)`: either the transport throws, or a
response arrives. -/
inductive FetchOutcome (β : Type)
  | thrown
  | response (r : HttpResponse β)
deriving DecidableEq

/-- The parsed Overpass body: JSON `null` (falsy `data`), or an object with
an optional `elements` array. -/
inductive OverpassData
  | null
  | obj (elements : Option (List OverpassElement))
deriving DecidableEq

/-- Lines 61–115: build the parent map, filter to toilet-bearing elements,
normalise each in response order. -/
def processElements (elements : List OverpassElement) : List Toilet :=
  (elements.filter isToiletElement).map (normalizeElement (buildParentMap elements))

/-- The exact message of the error thrown to the caller on line 121. -/
def discoveryFailureMessage : String := "failed to find nearby toilets from openstreetmap."

/-- The body of the `try` block of `findToilets` (lines 55–117):
`Except.error` marks a thrown exception (bad status on line 57, or a
rejected `response.json()`), to be handled by the `catch` below. -/
def findToiletsTry (r : HttpResponse OverpassData) : Except String (List Toilet) :=
  if r.ok then
    match r.body with
    | none => Except.error "malformed response body"
    | some OverpassData.null => Except.ok []
    | some (OverpassData.obj none) => Except.ok []
    | some (OverpassData.obj (some elements)) => Except.ok (processElements elements)
  else Except.error "overpass api failed with status"

/-- `findToilets` (lines 28–123) as a function of the upstream outcome: the
`catch` block replaces every thrown error by the one generic message. -/
def findToilets (o : FetchOutcome OverpassData) : Except String (List Toilet) :=
  match o with
  | FetchOutcome.thrown => Except.error discoveryFailureMessage
  | FetchOutcome.response r =>
    match findToiletsTry r with
    | Except.ok ts => Except.ok ts
    | Except.error _ => Except.error discoveryFailureMessage

/-- The structured `address` object of a Nominatim reply. -/
structure NominatimAddress where
  house_number : Option String := none
  road : Option String := none
  suburb : Option String := none
  city : Option String := none
  postcode : Option String := none
deriving DecidableEq

/-- The parsed Nominatim body: JSON `null`, or an object with optional
`address`, `display_name` and `error` fields. -/
inductive NominatimData
  | null
  | obj (address : Option NominatimAddress) (display_name : Option String)
      (error : Option String)
deriving DecidableEq

/-- The `parts` array built on lines 142–156, transcribing the `push` calls:
house number, road, suburb, then either the combined Singapore token or
city and postcode separately. -/
def structuredParts (adr : NominatimAddress) : List String :=
  let parts : List String := []
  let parts := if truthyStr adr.house_number then parts ++ [adr.house_number.getD ""] else parts
  let parts := if truthyStr adr.road then parts ++ [adr.road.getD ""] else parts
  let parts := if truthyStr adr.suburb then parts ++ [adr.suburb.getD ""] else parts
  if truthyStr adr.city && (jsToLower (adr.city.getD "") == "singapore") then
    if truthyStr adr.postcode then parts ++ ["singapore " ++ adr.postcode.getD ""]
    else parts ++ ["singapore"]
  else
    let parts := if truthyStr adr.city then parts ++ [adr.city.getD ""] else parts
    if truthyStr adr.postcode then parts ++ [adr.postcode.getD ""] else parts

/-- `[...new Set(parts)]` (line 158): stable deduplication keeping the first
occurrence of each element; `seen` accumulates the elements already kept. -/
def dedupFirst (seen : List String) : List String → List String
  | [] => []
  | x :: xs => if seen.contains x then dedupFirst seen xs else x :: dedupFirst (x :: seen) xs

/-- The body of the `try` block of `reverseGeocode` (lines 128–174), for a
successfully parsed body. On a JSON `null` body, `data && data.address` is
falsy so the structured branch is skipped, and `data.display_name` then
dereferences `null` and throws a `TypeError` (`Except.error` here), which
the surrounding `catch` turns into the network-error string. -/
def reverseGeocodeTry (d : NominatimData) : Except String String :=
  match d with
  | NominatimData.null => Except.error "TypeError: null dereference"
  | NominatimData.obj address display_name err =>
      let viaStructured : Option String :=
        match address with
        | some adr =>
            let uniqueAddressParts := dedupFirst [] (structuredParts adr)
            if 0 < uniqueAddressParts.length then
              some (jsToLower (String.intercalate ", " uniqueAddressParts))
            else none
        | none => none
      match viaStructured with
      | some s => Except.ok s
      | none =>
          if truthyStr display_name then Except.ok (jsToLower (display_name.getD ""))
          else if truthyStr err then
            Except.ok (jsToLower ("location lookup failed: " ++ err.getD ""))
          else Except.ok "could not determine address"

/-- `reverseGeocode` (lines 125–180) as a function of the upstream outcome:
a transport throw, a bad status (line 135 throws), a rejected `json()`, and
any exception inside the `try` body all reach the `catch`, which returns the
literal network-error string. -/
def reverseGeocode (o : FetchOutcome NominatimData) : String :=
  match o with
  | FetchOutcome.thrown => "unknown location (network error)"
  | FetchOutcome.response r =>
      if r.ok then
        match r.body with
        | none => "unknown location (network error)"
        | some d =>
            match reverseGeocodeTry d with
            | Except.ok s => s
            | Except.error _ => "unknown location (network error)"
      else "unknown location (network error)"

/-! ## Claim-side reference definitions

These restate parts of the specification in its own words, to be compared
with the source-derived definitions above. -/

/-- Claim-side selection predicate: amenity=toilets OR
(railway=station AND toilets=yes). -/
def isToiletSpec (e : OverpassElement) : Prop :=
  tagOf e Tags.amenity = some "toilets" ∨
    (tagOf e Tags.railway = some "station" ∧ tagOf e Tags.toilets = some "yes")

instance (e : OverpassElement) : Decidable (isToiletSpec e) := by
  unfold isToiletSpec; infer_instance

/-- Claim-side containment: the first named way of the response (in response
order) whose member list contains the given node id. -/
def firstContainingWay (elements : List OverpassElement) (n : Nat) : Option OverpassElement :=
  (elements.filter isIndexedWay).find? (fun w => (w.nodes.getD []).contains n)

/-- A present, truthy optional string as a one-element token list; absent or
empty contributes nothing. -/
def optPart : Option String → List String
  | none => []
  | some s => if s == "" then [] else [s]

/-- Claim-side address assembly: street, house number, postcode, city tag
values that are present, joined with `", "` and lower-cased; the sentinel
when none is present. -/
def addressFromTags (e : OverpassElement) : String :=
  let toks := optPart (tagOf e Tags.addr_street) ++ optPart (tagOf e Tags.addr_housenumber) ++
    optPart (tagOf e Tags.addr_postcode) ++ optPart (tagOf e Tags.addr_city)
  if toks.isEmpty then "address not available" else jsToLower (String.intercalate ", " toks)

/-- Claim-side tier order for `reverseGeocode`: non-empty structured
assembly, then free-text display name, then explicit upstream error, then
the generic literal; every path reaching the blanket handler (transport
throw, bad status, unparseable body, `null` body) yields the network-error
literal. -/
def tierResult (o : FetchOutcome NominatimData) : String :=
  match o with
  | FetchOutcome.thrown => "unknown location (network error)"
  | FetchOutcome.response r =>
      match r.ok, r.body with
      | false, _ => "unknown location (network error)"
      | true, none => "unknown location (network error)"
      | true, some NominatimData.null => "unknown location (network error)"
      | true, some (NominatimData.obj address display_name err) =>
          let uniq : List String :=
            match address with
            | some adr => dedupFirst [] (structuredParts adr)
            | none => []
          if 0 < uniq.length then jsToLower (String.intercalate ", " uniq)
          else if truthyStr display_name then jsToLower (display_name.getD "")
          else if truthyStr err then jsToLower ("location lookup failed: " ++ err.getD "")
          else "could not determine address"

/-! ## Shared helper lemmas -/

/-- Left-biased choice on options, used to state lookup properties of the
parent-name map. -/
def optOr {α : Type} (a b : Option α) : Option α :=
  match a with
  | some v => some v
  | none => b

theorem optOr_none {α : Type} (a : Option α) : optOr a none = a := by
  cases a <;> rfl

theorem optOr_none_left {α : Type} (b : Option α) : optOr none b = b := rfl

theorem optOr_some {α : Type} (v : α) (b : Option α) : optOr (some v) b = some v := rfl

theorem optOr_assoc {α : Type} (a b c : Option α) :
    optOr (optOr a b) c = optOr a (optOr b c) := by
  cases a <;> cases b <;> rfl

theorem insertNodes_lookup (nm : String) (ns : List Nat) :
    ∀ (m : List (Nat × String)) (k : Nat),
      (insertNodes nm m ns).lookup k =
        optOr (m.lookup k) (if ns.contains k then some nm else none) := by
  induction ns with
  | nil =>
      intro m k
      simp [insertNodes, optOr_none]
  | cons n ns ih =>
      intro m k
      show (insertNodes nm (if (m.lookup n).isSome then m else (n, nm) :: m) ns).lookup k = _
      rw [ih]
      by_cases hk : k = n
      · subst hk
        rcases h : m.lookup k with _ | v
        · simp [h, List.lookup_cons, List.contains_cons, optOr]
        · simp [h, List.contains_cons, optOr]
      · have hb : (k == n) = false := by simp [hk]
        rcases h : m.lookup n with _ | v
        · simp [h, List.lookup_cons, List.contains_cons, hb, hk]
        · simp [h, List.contains_cons, hb, hk]

theorem foldInsert_lookup (ws : List OverpassElement) :
    ∀ (m : List (Nat × String)) (k : Nat),
      ((ws.foldl (fun m w => insertNodes (wayNameOf w) m (w.nodes.getD [])) m).lookup k)
        = optOr (m.lookup k)
            ((ws.find? (fun w => (w.nodes.getD []).contains k)).map wayNameOf) := by
  induction ws with
  | nil => intro m k; simp [optOr_none]
  | cons w ws ih =>
      intro m k
      rw [List.foldl_cons, ih, insertNodes_lookup, optOr_assoc]
      rcases h : (w.nodes.getD []).contains k with _ | _
      · simp only [List.find?_cons, h]
        simp [h, optOr_none_left, optOr_some]
      · simp only [List.find?_cons, h]
        simp [h, optOr_none_left, optOr_some]

/-- The parent-name map realises exactly the first-containing-named-way
relation: looking up a node id yields the name of the first named way of the
response whose member list contains it. -/
theorem buildParentMap_lookup (elements : List OverpassElement) (k : Nat) :
    (buildParentMap elements).lookup k = (firstContainingWay elements k).map wayNameOf := by
  unfold buildParentMap firstContainingWay
  rw [foldInsert_lookup]
  simp [optOr]

theorem optPart_eq (o : Option String) :
    optPart o = if truthyStr o then [o.getD ""] else [] := by
  cases o with
  | none => rfl
  | some s =>
      rcases h : s == "" with _ | _ <;> simp [optPart, truthyStr, h]

theorem filterTruthy_nil : filterTruthy [] = [] := rfl

theorem filterTruthy_cons (a : Option String) (l : List (Option String)) :
    filterTruthy (a :: l) = optPart a ++ filterTruthy l := by
  rcases h : truthyStr a with _ | _ <;>
    simp [filterTruthy, List.filter_cons, h, optPart_eq]

theorem dedupFirst_sublist : ∀ (l seen : List String), (dedupFirst seen l).Sublist l := by
  intro l
  induction l with
  | nil => intro seen; simp [dedupFirst]
  | cons x xs ih =>
      intro seen
      show (if seen.contains x then dedupFirst seen xs else x :: dedupFirst (x :: seen) xs).Sublist _
      by_cases h : seen.contains x = true
      · rw [if_pos h]
        exact (ih seen).cons x
      · rw [if_neg h]
        exact (ih (x :: seen)).cons₂ x

theorem dedupFirst_mem : ∀ (l seen : List String) (x : String),
    x ∈ dedupFirst seen l ↔ (x ∈ l ∧ x ∉ seen) := by
  intro l
  induction l with
  | nil => intro seen x; simp [dedupFirst]
  | cons y xs ih =>
      intro seen x
      show x ∈ (if seen.contains y then dedupFirst seen xs else y :: dedupFirst (y :: seen) xs) ↔ _
      by_cases hc : seen.contains y = true
      · have hy : y ∈ seen := by simpa using hc
        rw [if_pos hc, ih]
        by_cases hxy : x = y
        · subst hxy
          simp [hy]
        · simp [hxy]
      · have hy : y ∉ seen := by simpa using hc
        rw [if_neg hc]
        simp only [List.mem_cons, ih]
        by_cases hxy : x = y
        · subst hxy
          simp [hy]
        · simp [hxy]

theorem dedupFirst_nodup : ∀ (l seen : List String), (dedupFirst seen l).Nodup := by
  intro l
  induction l with
  | nil => intro seen; simp [dedupFirst]
  | cons y xs ih =>
      intro seen
      show (if seen.contains y then dedupFirst seen xs else y :: dedupFirst (y :: seen) xs).Nodup
      by_cases hc : seen.contains y = true
      · rw [if_pos hc]
        exact ih seen
      · rw [if_neg hc]
        refine List.nodup_cons.mpr ⟨fun hmem => ?_, ih (y :: seen)⟩
        rcases (dedupFirst_mem xs (y :: seen) y).mp hmem with ⟨-, hny⟩
        exact hny (List.mem_cons_self y seen)

/-- The source's boolean selection test coincides with the claim-side
predicate. -/
theorem toilet_filter_agrees (e : OverpassElement) :
    isToiletElement e = decide (isToiletSpec e) := by
  rw [Bool.eq_iff_iff]
  simp [isToiletElement, isToiletSpec]

theorem jsToLower_sentinel : jsToLower "address not available" = "address not available" := rfl

/-! ## Concrete witness data -/

/-- A way selected as a toilet element whose precomputed centroid lies on the
equator (latitude exactly `0`), as for a station straddling it. -/
def equatorCenterWay : OverpassElement :=
  { id := 7, type := ElemType.way, center := some { lat := 0, lon := 104 },
    tags := some { amenity := some "toilets" } }

/-- A station node with toilets and a name. -/
def centralStation : OverpassElement :=
  { id := 3, type := ElemType.node, lat := some 1, lon := some 103,
    tags := some { railway := some "station", toilets := some "yes",
                   name := some "Central" } }

/-- A named way containing member nodes 5 and 6. -/
def mallWayA : OverpassElement :=
  { id := 100, type := ElemType.way,
    tags := some { name := some "Mall One" }, nodes := some [5, 6] }

/-- A second named way also containing member node 5, later in the response. -/
def mallWayB : OverpassElement :=
  { id := 101, type := ElemType.way,
    tags := some { name := some "Mall Two" }, nodes := some [5] }

/-- A toilet node whose id appears in both named ways above. -/
def toiletNode : OverpassElement :=
  { id := 5, type := ElemType.node, lat := some 1, lon := some 103,
    tags := some { amenity := some "toilets" } }

/-- The structured address of the Singapore assembly example. -/
def singaporeAdr : NominatimAddress :=
  { house_number := some "12", road := some "Main St", city := some "Singapore",
    postcode := some "123456" }

/-! ## Claim theorems -/

/-- C1: for every upstream element list, `findToilets` succeeds and returns
exactly the elements whose tags satisfy amenity=toilets OR (railway=station
AND toilets=yes), each mapped to one `Toilet` record, in upstream order;
every other element (ways/relations fetched only for containment, and
anything else) is silently dropped without failing the call. -/
theorem c1_selection_and_order (elements : List OverpassElement) :
    findToilets (FetchOutcome.response ⟨true, some (OverpassData.obj (some elements))⟩)
      = Except.ok ((elements.filter (fun e => decide (isToiletSpec e))).map
          (normalizeElement (buildParentMap elements))) := by
  have hfun : (fun e => decide (isToiletSpec e)) = isToiletElement :=
    funext fun e => (toilet_filter_agrees e).symm
  rw [hfun]
  rfl

/-- C2 (amended): every non-success response, malformed body, or transport
failure makes `findToilets` fail with the one fixed generic message — which
is `"failed to find nearby toilets from openstreetmap."`, not the shorter
text quoted by the claim. -/
theorem c2_generic_discovery_failure :
    (findToilets FetchOutcome.thrown = Except.error discoveryFailureMessage)
    ∧ (∀ b : Option OverpassData,
        findToilets (FetchOutcome.response ⟨false, b⟩) = Except.error discoveryFailureMessage)
    ∧ (findToilets (FetchOutcome.response ⟨true, none⟩)
        = Except.error discoveryFailureMessage) :=
  ⟨rfl, fun _ => rfl, rfl⟩

/-- C2 counterexample: the message the caller sees on a transport failure is
`"failed to find nearby toilets from openstreetmap."`, which is not the text
`"failed to find nearby toilets"` asserted by the claim. -/
theorem c2_exact_message_counterexample :
    findToilets FetchOutcome.thrown = Except.error discoveryFailureMessage
    ∧ discoveryFailureMessage ≠ "failed to find nearby toilets" :=
  ⟨rfl, by decide⟩

/-- C9 (code bug): a selected way with a present centroid of latitude `0`
does not receive the centroid latitude — the `||` fallback treats `0` as
absent and falls through to the element's (absent) direct coordinate, so the
record's latitude is `undefined` instead of `0`. -/
theorem c9_zero_centroid_fallback :
    isToiletElement equatorCenterWay = true
    ∧ equatorCenterWay.center = some { lat := 0, lon := 104 }
    ∧ (normalizeElement [] equatorCenterWay).location.lat = none
    ∧ (normalizeElement [] equatorCenterWay).location.lat ≠ some 0
    ∧ (normalizeElement [] equatorCenterWay).location.lng = some 104 :=
  ⟨rfl, rfl, rfl, by decide, rfl⟩

/-- C10: a successful HTTP response whose JSON body parses to `null` is
reported with the network-error string (the unguarded `display_name` access
throws and the blanket handler catches it), not with the generic
"could not determine address". -/
theorem c10_null_body_reported_as_network_error :
    reverseGeocode (FetchOutcome.response ⟨true, some NominatimData.null⟩)
      = "unknown location (network error)"
    ∧ reverseGeocode (FetchOutcome.response ⟨true, some NominatimData.null⟩)
      ≠ "could not determine address" :=
  ⟨rfl, by decide⟩

theorem jsToLower_generic_toilet : jsToLower "public toilet" = "public toilet" := rfl

theorem jsToLower_unnamed_station : jsToLower "station toilet" = "station toilet" := rfl

/-- C4: the display name is `"<name> station toilet"` for a named station,
`"station toilet"` for an unnamed one, else the element's name when present
(and non-empty, the code's truthiness test for "exists"), else
`"public toilet"`; lower-cased in the output record. -/
theorem c4_display_name (pm : List (Nat × String)) (e : OverpassElement) :
    (tagOf e Tags.railway = some "station" →
      (∀ s, tagOf e Tags.name = some s → s ≠ "" →
        (normalizeElement pm e).name = jsToLower (s ++ " station toilet"))
      ∧ (truthyStr (tagOf e Tags.name) = false →
        (normalizeElement pm e).name = "station toilet"))
    ∧ (tagOf e Tags.railway ≠ some "station" →
      (∀ s, tagOf e Tags.name = some s → s ≠ "" →
        (normalizeElement pm e).name = jsToLower s)
      ∧ (truthyStr (tagOf e Tags.name) = false →
        (normalizeElement pm e).name = "public toilet")) := by
  constructor
  · intro hr
    constructor
    · intro s hs hne
      have hb : (s == "") = false := by simp [hne]
      simp [normalizeElement, hr, hs, truthyStr, hb]
    · intro hf
      simp [normalizeElement, hr, hf, jsToLower_unnamed_station]
  · intro hr
    constructor
    · intro s hs hne
      have hb : (s == "") = false := by simp [hne]
      simp [normalizeElement, hr, hs, truthyStr, hb]
    · intro hf
      simp [normalizeElement, hr, hf, jsToLower_generic_toilet]

/-- Witness for C4: a station node named "Central" produces the display name
"central station toilet". -/
theorem c4_display_name_witness :
    (normalizeElement [] centralStation).name = "central station toilet" :=
  (((c4_display_name [] centralStation).1 rfl).1 "Central" rfl (by decide)).trans rfl

/-- C5: `housedIn` is set only for node elements; a node receives the
lower-cased name of the first named way of the response (in response order)
whose member list contains its id, and nothing otherwise; way/relation
elements never receive `housedIn`. -/
theorem c5_housed_in (elements : List OverpassElement) (e : OverpassElement) :
    (e.type = ElemType.node →
      (normalizeElement (buildParentMap elements) e).housedIn
        = ((firstContainingWay elements e.id).map wayNameOf).map jsToLower)
    ∧ (e.type ≠ ElemType.node →
      (normalizeElement (buildParentMap elements) e).housedIn = none) := by
  constructor
  · intro h
    simp [normalizeElement, h, buildParentMap_lookup]
  · intro h
    simp [normalizeElement, h]

/-- Witness for C5: node 5 is a member of both named ways, and receives the
name of the first one in the response ("Mall One"), lower-cased. -/
theorem c5_housed_in_witness :
    (normalizeElement (buildParentMap [mallWayA, mallWayB, toiletNode]) toiletNode).housedIn
      = some "mall one" :=
  ((c5_housed_in [mallWayA, mallWayB, toiletNode] toiletNode).1 rfl).trans rfl

/-- C7: the fee-exempt flag is true iff the fee tag is exactly "no" or "0";
wheelchair and diaper flags are true iff the respective tag is exactly
"yes". -/
theorem c7_capability_flags (pm : List (Nat × String)) (e : OverpassElement) :
    ((normalizeElement pm e).fee = true ↔
      (tagOf e Tags.fee = some "no" ∨ tagOf e Tags.fee = some "0"))
    ∧ ((normalizeElement pm e).wheelchair = true ↔ tagOf e Tags.wheelchair = some "yes")
    ∧ ((normalizeElement pm e).diaper = true ↔ tagOf e Tags.diaper = some "yes") := by
  refine ⟨?_, ?_, ?_⟩ <;> simp [normalizeElement]

/-- C8: the record's address concatenates, in order, the present (truthy)
street, house-number, postcode and city tag values, joined with ", " and
lower-cased, and is the sentinel "address not available" when none is
present. -/
theorem c8_address_assembly (pm : List (Nat × String)) (e : OverpassElement) :
    (normalizeElement pm e).address = addressFromTags e := by
  have hft : filterTruthy
      [tagOf e Tags.addr_street, tagOf e Tags.addr_housenumber,
       tagOf e Tags.addr_postcode, tagOf e Tags.addr_city]
      = optPart (tagOf e Tags.addr_street) ++ optPart (tagOf e Tags.addr_housenumber) ++
        optPart (tagOf e Tags.addr_postcode) ++ optPart (tagOf e Tags.addr_city) := by
    simp [filterTruthy_cons, filterTruthy_nil]
  simp only [normalizeElement, addressFromTags, hft]
  rcases hL : optPart (tagOf e Tags.addr_street) ++ optPart (tagOf e Tags.addr_housenumber) ++
      optPart (tagOf e Tags.addr_postcode) ++ optPart (tagOf e Tags.addr_city) with _ | ⟨x, xs⟩
  · simp [hL, jsToLower_sentinel]
  · simp [hL]

/-- C3: `reverseGeocode` is total and its result follows the exact tier
order of the claim: non-empty structured assembly, then truthy
`display_name` lower-cased, then `"location lookup failed: <error>"`
lower-cased, then the literal "could not determine address"; every path
that reaches the blanket handler (transport throw, non-success status,
unparseable body, `null` body) yields the literal
"unknown location (network error)". -/
theorem c3_tier_order (o : FetchOutcome NominatimData) :
    reverseGeocode o = tierResult o := by
  match o with
  | FetchOutcome.thrown => rfl
  | FetchOutcome.response ⟨false, body⟩ => rfl
  | FetchOutcome.response ⟨true, none⟩ => rfl
  | FetchOutcome.response ⟨true, some NominatimData.null⟩ => rfl
  | FetchOutcome.response ⟨true, some (NominatimData.obj address display_name err)⟩ =>
      simp only [reverseGeocode, reverseGeocodeTry, tierResult]
      rcases address with _ | adr
      · by_cases hd : truthyStr display_name = true
        · simp [hd]
        · by_cases he : truthyStr err = true
          · simp [hd, he]
          · simp [hd, he]
      · by_cases hlen : 0 < (dedupFirst [] (structuredParts adr)).length
        · simp [hlen]
        · by_cases hd : truthyStr display_name = true
          · simp [hlen, hd]
          · by_cases he : truthyStr err = true
            · simp [hlen, hd, he]
            · simp [hlen, hd, he]

/-- C6: in the structured branch, tokens are collected as house number,
road, suburb; a city equal, case-insensitively, to "singapore" collapses
city and postcode into one combined token ("singapore <postcode>", or just
"singapore" without a truthy postcode); otherwise city then postcode are
appended independently; the token list is deduplicated preserving first
occurrences; and the concrete example 12 / Main St / 123456 / Singapore
yields exactly "12, main st, singapore 123456". -/
theorem c6_singapore_assembly :
    (∀ a : NominatimAddress, ∀ c, a.city = some c → c ≠ "" → jsToLower c = "singapore" →
      structuredParts a =
        optPart a.house_number ++ optPart a.road ++ optPart a.suburb ++
          [if truthyStr a.postcode then "singapore " ++ a.postcode.getD "" else "singapore"])
    ∧ (∀ a : NominatimAddress,
        (truthyStr a.city && (jsToLower (a.city.getD "") == "singapore")) = false →
      structuredParts a =
        optPart a.house_number ++ optPart a.road ++ optPart a.suburb ++
          optPart a.city ++ optPart a.postcode)
    ∧ (∀ l : List String, (dedupFirst [] l).Sublist l ∧ (dedupFirst [] l).Nodup
        ∧ (∀ x : String, x ∈ dedupFirst [] l ↔ x ∈ l))
    ∧ reverseGeocode (FetchOutcome.response ⟨true, some (NominatimData.obj
        (some singaporeAdr) none none)⟩)
      = "12, main st, singapore 123456" := by
  refine ⟨?_, ?_, ?_, rfl⟩
  · intro a c hc hne hlower
    have hb : (c == "") = false := by simp [hne]
    have hcity : (truthyStr a.city && (jsToLower (a.city.getD "") == "singapore")) = true := by
      simp [hc, truthyStr, hb, hlower]
    simp only [structuredParts, hcity, optPart_eq]
    by_cases h1 : truthyStr a.house_number = true <;>
      by_cases h2 : truthyStr a.road = true <;>
      by_cases h3 : truthyStr a.suburb = true <;>
      by_cases h5 : truthyStr a.postcode = true <;>
      simp [h1, h2, h3, h5]
  · intro a hcond
    simp only [structuredParts, hcond, optPart_eq]
    by_cases h1 : truthyStr a.house_number = true <;>
      by_cases h2 : truthyStr a.road = true <;>
      by_cases h3 : truthyStr a.suburb = true <;>
      by_cases h4 : truthyStr a.city = true <;>
      by_cases h5 : truthyStr a.postcode = true <;>
      simp [h1, h2, h3, h4, h5, hcond]
  · intro l
    refine ⟨dedupFirst_sublist l [], dedupFirst_nodup l [], fun x => ?_⟩
    rw [dedupFirst_mem]
    simp

/-- Witness for C6: the Singapore example address produces the combined
token list before deduplication, join and lower-casing. -/
theorem c6_singapore_assembly_witness :
    structuredParts singaporeAdr = ["12", "Main St", "singapore 123456"] :=
  (c6_singapore_assembly.1 singaporeAdr "Singapore" rfl (by decide) rfl).trans rfl

end ToiletGoWhere
